import Mathlib

/-!
Verification of the PyDrop discovery-and-transfer subsystem (`src/pydrop.py`).

The Python code is shallowly embedded: byte strings become `List Nat`
(each element one byte), Python `str` values become Lean `String`
(with parsing performed on `List Char`, since a Lean `String` is a
structure around `List Char`), Python exceptions become `Option`
failures that the surrounding `try`/`except` blocks consume, and the
side effects of a handler (registry writes, GUI callback invocations,
HTTP responses) are returned explicitly.
-/

namespace PyDrop

/-! ## Python string primitives

These model the Python `str`/`bytes` operations the source uses:
`bytes.decode()` (strict UTF-8), `str.split("|")`, `str.startswith`,
and `int(str)`.
-/

/-- Helper turning an ASCII Lean string into the byte list of its UTF-8
encoding, for building concrete datagrams in witnesses. -/
def asciiBytes (s : String) : List Nat :=
  s.toList.map Char.toNat

/-- Continuation byte test for UTF-8 (`0x80 ≤ b ≤ 0xBF`). -/
def isCont (b : Nat) : Bool :=
  decide (0x80 ≤ b ∧ b ≤ 0xBF)

/-- Strict UTF-8 decoding of a byte list, as performed by Python's
`bytes.decode()` at line 97 of the source: rejects truncated sequences,
stray continuation bytes, overlong encodings, surrogates and code
points above `0x10FFFF`.  `none` models `UnicodeDecodeError`. -/
def utf8DecodeList : List Nat → Option (List Char)
  | [] => some []
  | b :: rest =>
    if b ≤ 0x7F then
      (utf8DecodeList rest).map (fun cs => Char.ofNat b :: cs)
    else if 0xC2 ≤ b ∧ b ≤ 0xDF then
      match rest with
      | c1 :: rest2 =>
        if isCont c1 then
          (utf8DecodeList rest2).map
            (fun cs => Char.ofNat ((b - 0xC0) * 0x40 + (c1 - 0x80)) :: cs)
        else none
      | [] => none
    else if 0xE0 ≤ b ∧ b ≤ 0xEF then
      match rest with
      | c1 :: c2 :: rest2 =>
        if isCont c1 ∧ isCont c2 ∧
            (b = 0xE0 → 0xA0 ≤ c1) ∧ (b = 0xED → c1 ≤ 0x9F) then
          (utf8DecodeList rest2).map
            (fun cs =>
              Char.ofNat ((b - 0xE0) * 0x1000 + (c1 - 0x80) * 0x40 + (c2 - 0x80)) :: cs)
        else none
      | _ => none
    else if 0xF0 ≤ b ∧ b ≤ 0xF4 then
      match rest with
      | c1 :: c2 :: c3 :: rest2 =>
        if isCont c1 ∧ isCont c2 ∧ isCont c3 ∧
            (b = 0xF0 → 0x90 ≤ c1) ∧ (b = 0xF4 → c1 ≤ 0x8F) then
          (utf8DecodeList rest2).map
            (fun cs =>
              Char.ofNat ((b - 0xF0) * 0x40000 + (c1 - 0x80) * 0x1000 +
                (c2 - 0x80) * 0x40 + (c3 - 0x80)) :: cs)
        else none
      | _ => none
    else none

/-- Auxiliary recursion for `pySplit`: `acc` is the current field,
reversed. -/
def pySplitAux (sep : Char) : List Char → List Char → List (List Char)
  | [], acc => [acc.reverse]
  | c :: rest, acc =>
    if c = sep then acc.reverse :: pySplitAux sep rest []
    else pySplitAux sep rest (c :: acc)

/-- Python `str.split(sep)` for a one-character separator, as used in
`msg.split("|")` at line 99: every occurrence of the separator starts a
new (possibly empty) field, and the empty string yields one empty
field. -/
def pySplit (sep : Char) (s : List Char) : List (List Char) :=
  pySplitAux sep s []

/-- Python `str.startswith(pre)`. -/
def pyStartsWith (pre s : List Char) : Bool :=
  List.isPrefixOf pre s

/-- ASCII whitespace stripped by Python's `int()` before parsing. -/
def pySpace (c : Char) : Bool :=
  [' ', '\t', '\n', '\r', '\x0b', '\x0c'].contains c

/-- Python `str.strip()` restricted to ASCII whitespace. -/
def pyStrip (s : List Char) : List Char :=
  ((s.dropWhile pySpace).reverse.dropWhile pySpace).reverse

/-- Numeric value of an ASCII digit. -/
def digVal (c : Char) : Nat :=
  c.toNat - '0'.toNat

/-- Digit-string parser for Python `int()`: a nonempty run of ASCII
digits in which single underscores may appear between digits, but not
leading, trailing or doubled.  `acc` holds the value of the digits read
so far (`none` before the first digit). -/
def pyDigitsCore : List Char → Option Nat → Option Nat
  | [], acc => acc
  | '_' :: c :: rest, some a =>
    if c.isDigit then pyDigitsCore rest (some (a * 10 + digVal c)) else none
  | '_' :: _, _ => none
  | c :: rest, acc =>
    if c.isDigit then pyDigitsCore rest (some (acc.getD 0 * 10 + digVal c)) else none

/-- Python `int(str)` in base 10 (modelling the ASCII fragment: optional
surrounding whitespace, an optional sign, then digits with optional
single underscores between them).  `none` models `ValueError`, as raised
by `int(parts[3])` at line 103. -/
def pyIntOfChars? (s : List Char) : Option Int :=
  match pyStrip s with
  | '+' :: rest => (pyDigitsCore rest none).map (fun n => (n : Int))
  | '-' :: rest => (pyDigitsCore rest none).map (fun n => -(n : Int))
  | rest => (pyDigitsCore rest none).map (fun n => (n : Int))

/-- Python f-string rendering of an `Optional[str]` value: `None` prints
as the four characters `None` (relevant because `field.filename` may be
`None` in `handle_upload`). -/
def pyStrOfOptStr : Option String → String
  | some s => s
  | none => "None"

/-! ## Data model: `Device` (source lines 33–40) -/

/-- Device record, from class `Device`: `last_seen` stands for the
`datetime.now()` timestamp taken in the constructor, threaded through as
an explicit `now` argument. -/
structure Device where
  name : String
  address : String
  port : Int
  http_port : Int
  device_id : String
  last_seen : Nat
deriving DecidableEq, Repr

/-- Constructor call `Device(name, address, port, http_port, device_id)`
at time `now`. -/
def mkDevice (name address : String) (port http_port : Int)
    (device_id : String) (now : Nat) : Device :=
  { name := name, address := address, port := port, http_port := http_port,
    device_id := device_id, last_seen := now }

/-! ## UDPDiscovery (source lines 43–119) -/

/-- `UDPDiscovery.DISCOVERY_PORT` (line 45). -/
def DISCOVERY_PORT : Nat := 8766

/-- `UDPDiscovery.BROADCAST_PORT` (line 46). -/
def BROADCAST_PORT : Nat := 8767

/-- Port the listener binds in `_listen_loop` line 68:
`self.sock.bind(('', self.DISCOVERY_PORT))`. -/
def listenBindPort : Nat := DISCOVERY_PORT

/-- Port the broadcaster targets in `_broadcast_loop` line 89:
`sock.sendto(msg.encode(), ('255.255.255.255', self.BROADCAST_PORT))`. -/
def broadcastTargetPort : Nat := BROADCAST_PORT

/-- Address the broadcaster targets (line 89). -/
def broadcastTargetAddress : String := "255.255.255.255"

/-- Announcement message built by `_broadcast_loop` line 88. -/
def announceMessage (deviceId deviceName : String) (httpPort : Nat) : String :=
  "PYDROP_ANNOUNCE|" ++ deviceId ++ "|" ++ deviceName ++ "|" ++ toString httpPort

/-- `UDPDiscovery._handle_message(data, addr)` (lines 95–106), for a
local identity `selfId`.  The whole body runs inside `try`/`except:
pass`, so the decode failure (`UnicodeDecodeError`) and the port parse
failure (`ValueError` from `int(parts[3])`) are swallowed; every
swallowed or filtered path returns `none`.  The function returns
`some d` exactly when the source invokes `self.on_device_found(d)` —
with `d` built from the payload name field, the packet source address
`addr`, the constant websocket port `8765`, the parsed payload port
field and the payload id field. -/
def handle_message (selfId : String) (data : List Nat) (addr : String)
    (now : Nat) : Option Device :=
  match utf8DecodeList data with
  | none => none
  | some msg =>
    if pyStartsWith ("PYDROP_ANNOUNCE".toList) msg then
      if 4 ≤ (pySplit '|' msg).length then
        if String.mk ((pySplit '|' msg).getD 1 []) ≠ selfId then
          match pyIntOfChars? ((pySplit '|' msg).getD 3 []) with
          | some p =>
            some (mkDevice (String.mk ((pySplit '|' msg).getD 2 [])) addr 8765 p
              (String.mk ((pySplit '|' msg).getD 1 [])) now)
          | none => none
        else none
      else none
    else none

/-- One receive attempt in `_listen_loop` (lines 70–79): either a
datagram arrives, or `socket.timeout` fires, or some other socket error
is raised (for instance because `stop()` closed the socket). -/
inductive RecvOutcome where
  | datagram (data : List Nat) (srcIp : String)
  | timeout
  | socketError
deriving DecidableEq, Repr

/-- Whether a loop iteration continues or leaves the loop. -/
inductive LoopAction where
  | continueLoop
  | exitLoop
deriving DecidableEq, Repr

/-- Control flow of one iteration of `_listen_loop` (lines 70–79): the
`while self.running` condition is checked first; a received datagram is
processed and the loop continues; `except socket.timeout: continue`;
any other exception hits the bare `except: break`. -/
def listen_step (running : Bool) (o : RecvOutcome) : LoopAction :=
  if running then
    match o with
    | RecvOutcome.datagram _ _ => LoopAction.continueLoop
    | RecvOutcome.timeout => LoopAction.continueLoop
    | RecvOutcome.socketError => LoopAction.exitLoop
  else LoopAction.exitLoop

/-- Datagram processing inside `_listen_loop` (lines 72–75): the source
address is compared against `self._get_local_ip()` and the handler runs
only for packets from other addresses. -/
def listen_handle (selfId localIp : String) (data : List Nat)
    (srcIp : String) (now : Nat) : Option Device :=
  if srcIp ≠ localIp then handle_message selfId data srcIp now else none

/-- Receive timeout set in `_listen_loop` line 67: `settimeout(5)`. -/
def RECV_TIMEOUT : Nat := 5

/-- Inter-announcement wait used in `_broadcast_loop` line 93:
`threading.Event().wait(5)`. -/
def BROADCAST_WAIT : Nat := 5

/-- `threading.Event.wait(t)` returns as soon as the event is set, and
only after the full timeout `t` otherwise. -/
def eventWait (isSet : Bool) (t : Nat) : Nat :=
  if isSet then 0 else t

/-- The event waited on at line 93 is constructed by `threading.Event()`
in the same expression: it starts unset and no reference to it is kept
anywhere (in particular `stop()` at lines 116–119 holds no handle to
it), so nothing can ever set it. -/
def freshEventIsSet : Bool := false

/-- Seconds one pass of `threading.Event().wait(5)` blocks: the fresh
event is never set, so the wait always lasts the full interval. -/
def broadcastWaitSeconds : Nat :=
  eventWait freshEventIsSet BROADCAST_WAIT

/-- Mutable state of a `UDPDiscovery` object relevant to shutdown. -/
structure DiscoveryState where
  running : Bool
  sockOpen : Bool
deriving DecidableEq, Repr

/-- `UDPDiscovery.stop()` (lines 116–119): sets `running = False` and
closes the listening socket.  It performs no other action — in
particular it signals no event. -/
def udpStop (_s : DiscoveryState) : DiscoveryState :=
  { running := false, sockOpen := false }

/-! ## PyDropServer state (source lines 122–400)

The Python dict `self.devices` is modelled as an insertion-ordered
association list with unique keys, matching dict semantics for the
operations the source performs (`in`, indexing assignment, lookup).
GUI callback invocations (`self.gui_callback(event, data)`) are
collected in an event list. -/

/-- Registry mapping `device_id → Device` (`self.devices`, line 130). -/
abbrev Registry := List (String × Device)

/-- Python `key in dict`. -/
def dictContains (r : Registry) (k : String) : Bool :=
  r.any (fun p => p.1 == k)

/-- Python `dict[key] = value`: overwrite in place when the key exists,
append otherwise. -/
def dictSet (r : Registry) (k : String) (d : Device) : Registry :=
  if dictContains r k then
    r.map (fun p => if p.1 == k then (k, d) else p)
  else r ++ [(k, d)]

/-- Python `dict[key]` as a partial lookup. -/
def dictGet? (r : Registry) (k : String) : Option Device :=
  (r.find? (fun p => p.1 == k)).map Prod.snd

/-- GUI callback invocations performed by the server
(`self.gui_callback(event_type, data)` call sites). -/
inductive GuiEvent where
  | device_found (id name address : String) (http_port : Int)
  | file_received (name : Option String) (size : Nat) (id : String)
  | file_sent (name : String) (size : Nat) (toName : String)
  | file_offer
deriving DecidableEq, Repr

/-- Server state touched by the handlers under study: the device
registry plus the trace of GUI callback invocations. -/
structure ServerState where
  devices : Registry
  events : List GuiEvent
deriving DecidableEq, Repr

/-- `PyDropServer._on_device_found(device)` (lines 166–175): only when
the id is not yet a key does it store the device and fire the
`device_found` callback; an announcement for an already-known id leaves
the state completely unchanged. -/
def on_device_found (s : ServerState) (d : Device) : ServerState :=
  if dictContains s.devices d.device_id then s
  else
    { devices := dictSet s.devices d.device_id d,
      events := s.events ++
        [GuiEvent.device_found d.device_id d.name d.address d.http_port] }

/-- Fields of a parsed websocket JSON message, each `none` when the key
is absent (`data.get(...)` in the source). -/
structure WsMessage where
  type : Option String
  deviceName : Option String
  address : Option String
  port : Option Int
  httpPort : Option Int
  deviceId : Option String
deriving DecidableEq, Repr

/-- Reply sent back on the websocket by the handler. -/
inductive WsReply where
  | hello (deviceId deviceName : String)
deriving DecidableEq, Repr

/-- `PyDropServer._handle_websocket_message(ws, data)` (lines 330–360)
for a local identity `selfId`/`selfName`: `hello` answers with the local
identity; `announce` builds a Device from the message fields with the
source's `data.get` defaults and assigns it into the registry with no
filtering whatsoever (in particular no comparison of the announced id
against `selfId`); `file_offer` forwards to the GUI callback. -/
def handle_websocket_message (selfId selfName : String) (s : ServerState)
    (m : WsMessage) (now : Nat) : ServerState × Option WsReply :=
  match m.type with
  | some "hello" => (s, some (WsReply.hello selfId selfName))
  | some "announce" =>
    let device := mkDevice (m.deviceName.getD "Unknown") (m.address.getD "")
      (m.port.getD 0) (m.httpPort.getD 8080) (m.deviceId.getD "") now
    ({ devices := dictSet s.devices device.device_id device,
       events := s.events ++
        [GuiEvent.device_found device.device_id device.name device.address
          device.http_port] }, none)
  | some "file_offer" =>
    ({ s with events := s.events ++ [GuiEvent.file_offer] }, none)
  | _ => (s, none)

/-! ## File Receiver: `handle_upload` (source lines 245–279) -/

/-- First multipart body part as returned by `await reader.next()`:
`name` is the form field name (which the handler never reads), `filename`
is the client-supplied filename (absent when the part has none), and
`content` the part's payload bytes. -/
structure UploadPart where
  name : Option String
  filename : Option String
  content : List Nat
deriving DecidableEq, Repr

/-- HTTP response produced by the upload handler: the success JSON
(status 200 with the generated file id), the literal
`web.Response(text='No file', status=400)`, or the status-500 page
aiohttp produces when an exception escapes the handler (for instance
when `open(filepath, 'wb')` fails). -/
inductive UploadResponse where
  | ok (fileId : String)
  | noFile
  | serverError
deriving DecidableEq, Repr

/-- Received-file record stored in `self.received_files[file_id]`
(lines 264–269). -/
structure ReceivedRecord where
  name : Option String
  size : Nat
  time : Nat
  path : String
deriving DecidableEq, Repr

/-- Relative path (under the source directory) at which line 253 stores
the upload: `f"{file_id}_{filename}"` with no sanitisation of the
client-supplied filename, a `None` filename rendering as the text
`None`. -/
def upload_saved_rel_path (file_id : String) (filename : Option String) : String :=
  file_id ++ "_" ++ pyStrOfOptStr filename

/-- Destination directory of `handle_upload` (line 251):
`Path(__file__).parent / 'received'`. -/
def uploadSaveDir : String := "received"

/-- `PyDropServer.handle_upload(request)` (lines 245–279).  Explicit
parameters replace the handler's effects: `firstPart` is the result of
`await reader.next()` (`none` when the body has no part), `file_id` the
fresh `uuid4().hex[:8]` value, `writeOk` whether opening and writing the
destination file succeeds (it fails for instance when the combined
filename contains a path separator into a nonexistent directory), and
`now` the timestamp.  Returned are the HTTP response, the
`received_files` entries appended, and the GUI callback invocations.
When the write raises, the exception escapes the handler (there is no
`try` in it), so no record is stored and no callback fires. -/
def handle_upload (received : List (String × ReceivedRecord))
    (firstPart : Option UploadPart) (file_id : String) (writeOk : Bool)
    (now : Nat) :
    UploadResponse × List (String × ReceivedRecord) × List GuiEvent :=
  match firstPart with
  | none => (UploadResponse.noFile, received, [])
  | some part =>
    if writeOk then
      (UploadResponse.ok file_id,
       received ++ [(file_id,
         { name := part.filename, size := part.content.length, time := now,
           path := uploadSaveDir ++ "/" ++ upload_saved_rel_path file_id part.filename })],
       [GuiEvent.file_received part.filename part.content.length file_id])
    else (UploadResponse.serverError, received, [])

/-! ## File Sender (source lines 362–395 and 664–697) -/

/-- Environment a send call runs in: whether the local file can be
opened and measured, whether `import multipart` (line 372) finds a
module of that name, and whether an HTTP connection to
`device.address:device.http_port` would succeed. -/
structure SendEnv where
  fileReadable : Bool
  multipartImportable : Bool
  peerReachable : Bool
deriving DecidableEq, Repr

/-- Observable outcome of `send_file_to_device`: the returned boolean,
whether any HTTP request was actually issued to the peer, and whether a
`sent_files` record plus `file_sent` callback were produced. -/
structure SendOutcome where
  result : Bool
  httpRequestIssued : Bool
  recordedSent : Bool
deriving DecidableEq, Repr

/-- `PyDropServer.send_file_to_device(device, file_path)` (lines
362–395).  The body opens the file, builds a `urllib.request.Request`
object (construction alone, no I/O), executes `import multipart`, then
records the file in `self.sent_files`, fires the `file_sent` callback
and returns `True`; `urlopen` is never called, so no bytes ever reach
the peer and the result does not depend on `peerReachable`.  Any
exception (unreadable file, `ImportError`) lands in the bare `except`
which returns `False`. -/
def send_file_to_device (env : SendEnv) : SendOutcome :=
  if env.fileReadable then
    if env.multipartImportable then
      { result := true, httpRequestIssued := false, recordedSent := true }
    else { result := false, httpRequestIssued := false, recordedSent := false }
  else { result := false, httpRequestIssued := false, recordedSent := false }

/-- Environment of `PyDropGUI._upload_file` (lines 664–697):
`postSucceeds` is whether `urllib.request.urlopen(req, timeout=60)`
returns normally, i.e. the POST to the peer's `/api/upload` completes
with a success status; `urlopen` raises on connection refusal, timeout
and non-2xx statuses alike. -/
structure UploadEnv where
  fileReadable : Bool
  postSucceeds : Bool
deriving DecidableEq, Repr

/-- `PyDropGUI._upload_file(device, file_path)` (lines 664–697): builds
the multipart body, issues the POST, returns `True` on success and
`False` when any step raises. -/
def upload_file (env : UploadEnv) : Bool :=
  env.fileReadable && env.postSucceeds

/-- Sanity fact about the sender the GUI uses: `_upload_file` returns
true exactly when the file is readable and the POST completes with a
success status. -/
theorem upload_file_true_iff_post_succeeds (env : UploadEnv) :
    upload_file env = (env.fileReadable && env.postSucceeds) := rfl

/-- Sanity fact about `send_file_to_device`: no execution path of the
routine issues an HTTP request. -/
theorem send_file_to_device_never_issues_request (env : SendEnv) :
    (send_file_to_device env).httpRequestIssued = false := by
  unfold send_file_to_device
  split <;> [skip; rfl]
  split <;> rfl

/-! ## Claims -/

/-- Claim C1: the file-sending routine is claimed to return true only if
an HTTP POST carrying the file's content to the peer's upload endpoint
completes with a success status, with any network error, timeout or
non-success status yielding false.  Evaluating `send_file_to_device` at
the failing input — a readable file, the `multipart` module importable,
and an unreachable peer — shows the routine returning `True` and
recording the file as sent while issuing no HTTP request at all: the
`urllib.request.Request` object built at lines 366–370 is never passed
to `urlopen`, so the result cannot depend on any POST completing. -/
theorem send_returns_true_to_unreachable_peer_without_any_post :
    send_file_to_device
        { fileReadable := true, multipartImportable := true, peerReachable := false } =
      { result := true, httpRequestIssued := false, recordedSent := true } := by
  decide

/-- Claim C2: every upload is claimed to be stored directly under the
destination directory with all directory components stripped from the
client-supplied filename (so `../../evil.txt` is stored as `evil.txt`),
an empty name being replaced by a timestamp-derived one.  Evaluating the
path computation of `handle_upload` (line 253,
`save_dir / f"{file_id}_{filename}"`) at the failing inputs shows the
directory components of the client-supplied name are kept verbatim, and
that the empty filename yields the name `ab12cd34_`, not a
timestamp-derived one. -/
theorem upload_path_keeps_client_directory_components :
    upload_saved_rel_path "ab12cd34" (some "../../evil.txt") =
        "ab12cd34_../../evil.txt" ∧
    ("ab12cd34_../../evil.txt".toList.contains '/') = true ∧
    "ab12cd34_../../evil.txt" ≠ "evil.txt" ∧
    upload_saved_rel_path "ab12cd34" (some "") = "ab12cd34_" := by
  decide

/-- Claim C3: the broadcaster is claimed to send every announcement to
the same fixed discovery port (UDP 8766) the listener binds.  Evaluating
the port constants of the source shows the listener binds
`DISCOVERY_PORT = 8766` (line 68) while the broadcaster targets
`BROADCAST_PORT = 8767` (line 89): the two differ, so announcements are
sent to a port nobody listens on. -/
theorem broadcaster_targets_different_port_than_listener :
    listenBindPort = 8766 ∧ broadcastTargetPort = 8767 ∧
    broadcastTargetPort ≠ listenBindPort := by
  decide

/-- Claim C9: `stop()` is claimed to make both discovery tasks terminate
within one receive-timeout interval, the broadcaster's inter-announcement
wait being an interruptible primitive that `stop()` wakes immediately
rather than a plain timed sleep.  Evaluating the model shows `stop()`
only clears the running flag and closes the listener socket (which does
unblock the listener via the socket-error path), while the broadcaster's
wait at line 93 is `threading.Event().wait(5)` on a freshly constructed,
never-signalled event that `stop()` holds no reference to: the wait
always lasts the full 5-second interval, exactly a plain timed sleep. -/
theorem stop_cannot_wake_broadcaster_wait :
    udpStop { running := true, sockOpen := true } =
      { running := false, sockOpen := false } ∧
    listen_step true RecvOutcome.socketError = LoopAction.exitLoop ∧
    freshEventIsSet = false ∧
    broadcastWaitSeconds = BROADCAST_WAIT ∧
    broadcastWaitSeconds ≠ 0 := by
  decide

/-- Claim C10: the upload handler responds 400 exactly when the
multipart body yields no first part, creating no file, record or
callback invocation in that case; when a first part exists it is
consumed and stored without the handler ever checking that the part's
field name is `file`.  All four components hold of `handle_upload`:
the no-part case returns exactly the 400 response and leaves the state
untouched; a present part never yields 400 (a failing write yields the
500 path instead); the result is invariant under changing the part's
field name; and a present part whose write succeeds is stored, appending
one record and one `file_received` callback. -/
theorem upload_responds_400_iff_no_first_part
    (received : List (String × ReceivedRecord)) (part : UploadPart)
    (fid : String) (w : Bool) (now : Nat) :
    handle_upload received none fid w now = (UploadResponse.noFile, received, []) ∧
    (handle_upload received (some part) fid w now).1 ≠ UploadResponse.noFile ∧
    (∀ n : Option String,
      handle_upload received (some { part with name := n }) fid w now =
        handle_upload received (some part) fid w now) ∧
    handle_upload received (some part) fid true now =
      (UploadResponse.ok fid,
       received ++ [(fid,
         { name := part.filename, size := part.content.length, time := now,
           path := uploadSaveDir ++ "/" ++ upload_saved_rel_path fid part.filename })],
       [GuiEvent.file_received part.filename part.content.length fid]) := by
  refine ⟨rfl, ?_, fun n => rfl, rfl⟩
  cases w <;> simp [handle_upload]

/-- Witness for claim C10 at a concrete body with no first part. -/
theorem upload_responds_400_iff_no_first_part_witness :
    handle_upload [] none "ff00aa11" false 0 = (UploadResponse.noFile, [], []) :=
  (upload_responds_400_iff_no_first_part []
    { name := some "notfile", filename := some "a.txt", content := [1, 2, 3] }
    "ff00aa11" false 0).1

/-- First announcement of peer `aabbccddee01` (used for claim C4). -/
def firstAnnounce : Device :=
  mkDevice "Alice" "10.0.0.1" 8765 80 "aabbccddee01" 0

/-- Later announcement of the same peer id with a different address,
port and timestamp (used for claim C4). -/
def secondAnnounce : Device :=
  mkDevice "Alice" "10.0.0.2" 8765 81 "aabbccddee01" 9

/-- Claim C4, counterexample: the claim says each later announcement
with a known id overwrites the entry's address, httpPort and lastSeen
(last-write-wins).  Feeding `_on_device_found` two announcements with
the same id shows the registry still holds the first device — the later
address, port and timestamp were all discarded, because lines 167–168
store a device only when its id is not yet a key. -/
theorem repeated_announce_does_not_overwrite_entry :
    dictGet?
        ((on_device_found (on_device_found ⟨[], []⟩ firstAnnounce)
          secondAnnounce).devices) "aabbccddee01" = some firstAnnounce ∧
    firstAnnounce.address ≠ secondAnnounce.address ∧
    firstAnnounce.http_port ≠ secondAnnounce.http_port ∧
    firstAnnounce.last_seen ≠ secondAnnounce.last_seen := by
  decide

/-- Helper for claim C4: once the registry holds exactly the entry for
`d`, further announcements carrying the same id leave the server state
unchanged. -/
theorem foldl_on_device_found_const (d : Device) :
    ∀ (ds : List Device) (s : ServerState),
      (∀ x ∈ ds, x.device_id = d.device_id) →
      s.devices = [(d.device_id, d)] → ds.foldl on_device_found s = s
  | [], _, _, _ => rfl
  | x :: xs, s, h, hs => by
    have hx : on_device_found s x = s := by
      have hc : dictContains s.devices x.device_id = true := by
        rw [hs, h x (List.mem_cons_self x xs)]
        simp [dictContains]
      simp [on_device_found, hc]
    rw [List.foldl_cons, hx]
    exact foldl_on_device_found_const d xs s
      (fun y hy => h y (List.mem_cons_of_mem x hy)) hs

/-- Claim C4, amended: for every sequence of announcements carrying the
same peer id, the device registry keeps exactly one entry for that id
(its size stays constant after the first), but later announcements are
ignored entirely: the entry retains the first announcement's address,
httpPort and lastSeen (first-write-wins, not last-write-wins). -/
theorem registry_keeps_single_first_entry_per_id (d : Device) (ds : List Device)
    (h : ∀ x ∈ ds, x.device_id = d.device_id) :
    (ds.foldl on_device_found (on_device_found ⟨[], []⟩ d)).devices =
      [(d.device_id, d)] := by
  have h0 : (on_device_found ⟨[], []⟩ d).devices = [(d.device_id, d)] := by
    simp [on_device_found, dictContains, dictSet]
  rw [foldl_on_device_found_const d ds _ h h0, h0]

/-- Witness for the amended claim C4 at the two concrete announcements. -/
theorem registry_keeps_single_first_entry_per_id_witness :
    ([secondAnnounce].foldl on_device_found
        (on_device_found ⟨[], []⟩ firstAnnounce)).devices =
      [("aabbccddee01", firstAnnounce)] :=
  registry_keeps_single_first_entry_per_id firstAnnounce [secondAnnounce]
    (by decide)

/-- Claim C5, counterexample: the claim says no Device whose id equals
the local id is ever stored in the registry under any input path that
creates registry entries.  The websocket `announce` path (lines 340–348)
performs no id comparison at all: a websocket announce carrying the
local id `me1234567890` puts that id straight into the registry. -/
theorem websocket_announce_stores_device_with_local_id :
    dictContains
      ((handle_websocket_message "me1234567890" "myhost" ⟨[], []⟩
        { type := some "announce", deviceName := some "Evil",
          address := some "10.0.0.9", port := some 8765, httpPort := some 80,
          deviceId := some "me1234567890" } 0).1.devices)
      "me1234567890" = true := by
  decide

/-- Claim C5, amended: on the UDP discovery path the invariant does
hold — `_handle_message` filters announcements whose peer id equals the
local id, so a Device passed to `on_device_found` never carries the
local id, and feeding it to the registry callback cannot create an entry
keyed by the local id; the websocket announce path, by contrast, stores
devices without any id filter. -/
theorem udp_discovery_never_registers_local_id (selfId : String)
    (data : List Nat) (addr : String) (now : Nat) (d : Device)
    (h : handle_message selfId data addr now = some d) :
    d.device_id ≠ selfId ∧
    ∀ s : ServerState, dictContains s.devices selfId = false →
      dictContains (on_device_found s d).devices selfId = false := by
  have hid : d.device_id ≠ selfId := by
    unfold handle_message at h
    split at h
    · exact absurd h (by simp)
    · split at h
      · split at h
        · split at h
          · split at h
            · rw [Option.some_inj] at h
              rw [← h]
              simp only [mkDevice]
              assumption
            · exact absurd h (by simp)
          · exact absurd h (by simp)
        · exact absurd h (by simp)
      · exact absurd h (by simp)
  refine ⟨hid, fun s hs => ?_⟩
  unfold on_device_found
  by_cases hc : dictContains s.devices d.device_id = true
  · rw [if_pos hc]
    exact hs
  · rw [if_neg hc]
    show dictContains (dictSet s.devices d.device_id d) selfId = false
    unfold dictSet
    rw [if_neg hc]
    unfold dictContains
    rw [List.any_append]
    unfold dictContains at hs
    rw [hs]
    simp [hid]

/-- Witness for the amended claim C5 at a concrete remote announcement. -/
theorem udp_discovery_never_registers_local_id_witness :
    (mkDevice "Alice" "10.0.0.7" 8765 80 "peer01" 0).device_id ≠ "me1234567890" ∧
    dictContains
      (on_device_found ⟨[], []⟩
        (mkDevice "Alice" "10.0.0.7" 8765 80 "peer01" 0)).devices
      "me1234567890" = false := by
  have h := udp_discovery_never_registers_local_id "me1234567890"
    (asciiBytes "PYDROP_ANNOUNCE|peer01|Alice|80") "10.0.0.7" 0
    (mkDevice "Alice" "10.0.0.7" 8765 80 "peer01" 0) (by decide)
  exact ⟨h.1, h.2 ⟨[], []⟩ (by decide)⟩

/-- Claim C6, counterexample: the claim says that while the service is
still running the listener continues looping after any non-timeout
socket error, treating it as transient.  Evaluating one loop iteration
with `running = true` and a non-timeout socket error shows the bare
`except: break` at lines 78–79 exits the loop instead. -/
theorem socket_error_exits_listener_while_running :
    listen_step true RecvOutcome.socketError = LoopAction.exitLoop ∧
    LoopAction.exitLoop ≠ LoopAction.continueLoop := by
  decide

/-- Claim C6, amended: the listener loop continues after a received
datagram and after a receive timeout, but any other socket error exits
the loop even while the service is still running (this error path is
also what unblocks the loop when `stop()` closes the socket); when no
longer running, the loop exits at its condition check. -/
theorem listener_continues_on_timeout_exits_on_other_errors :
    (∀ (data : List Nat) (src : String),
      listen_step true (RecvOutcome.datagram data src) = LoopAction.continueLoop) ∧
    listen_step true RecvOutcome.timeout = LoopAction.continueLoop ∧
    listen_step true RecvOutcome.socketError = LoopAction.exitLoop ∧
    (∀ o : RecvOutcome, listen_step false o = LoopAction.exitLoop) :=
  ⟨fun _ _ => rfl, rfl, rfl, fun _ => rfl⟩

/-- Witness for the amended claim C6 at a concrete timeout iteration. -/
theorem listener_continues_on_timeout_witness :
    listen_step true RecvOutcome.timeout = LoopAction.continueLoop :=
  listener_continues_on_timeout_exits_on_other_errors.2.1

/-- Claim C7, counterexample: the claim calls a datagram well-formed
when it is a `PYDROP_ANNOUNCE` with at least 4 pipe-delimited fields,
and asserts `onDeviceFound` is then invoked whenever the peer id differs
from the local id.  The datagram `PYDROP_ANNOUNCE|peer01|Alice|80x`
decodes, starts with the announce tag, has exactly 4 fields and a peer
id different from the local id, yet the handler invokes nothing: the
non-numeric port field makes `int(parts[3])` raise, and the bare except
drops the datagram. -/
theorem four_field_announce_with_nonnumeric_port_dropped :
    utf8DecodeList (asciiBytes "PYDROP_ANNOUNCE|peer01|Alice|80x") =
      some ("PYDROP_ANNOUNCE|peer01|Alice|80x".toList) ∧
    pyStartsWith ("PYDROP_ANNOUNCE".toList)
      ("PYDROP_ANNOUNCE|peer01|Alice|80x".toList) = true ∧
    (pySplit '|' ("PYDROP_ANNOUNCE|peer01|Alice|80x".toList)).length = 4 ∧
    String.mk ((pySplit '|' ("PYDROP_ANNOUNCE|peer01|Alice|80x".toList)).getD 1 []) =
      "peer01" ∧
    ("peer01" : String) ≠ "me1234567890" ∧
    handle_message "me1234567890" (asciiBytes "PYDROP_ANNOUNCE|peer01|Alice|80x")
      "10.0.0.7" 0 = none := by
  decide

/-- Supporting fact for claim C7: the receive path of `_listen_loop`
(lines 73–74) discards every datagram whose source IP equals the local
IP before `_handle_message` ever runs, whatever its payload — so even a
well-formed announce carrying a foreign peer id never reaches
`onDeviceFound` when it arrives from the local IP. -/
theorem local_source_datagram_never_handled (selfId localIp : String)
    (data : List Nat) (now : Nat) :
    listen_handle selfId localIp data localIp now = none := by
  simp [listen_handle]

/-- Claim C7, amended: for every received announcement datagram whose
source IP differs from the local IP (the listener discards packets from
the local IP before handling them), that decodes as UTF-8, starts with
`PYDROP_ANNOUNCE`, has at least 4 pipe-delimited fields and a port field
`int()` accepts, and whose peer id differs from the local id, the
receive path invokes `onDeviceFound` with a Device whose address equals
the datagram's source IP address (never any address from the payload),
whose name is the payload's name field and whose httpPort is the parsed
payload port field.  The statement is over `listen_handle`, the embedding
of the whole datagram branch of `_listen_loop` (lines 72–75) including
its source-IP filter, so no reached-the-handler assumption is left
implicit. -/
theorem wellformed_announce_from_foreign_ip_invokes_callback
    (selfId localIp : String) (data : List Nat) (srcIp : String) (now : Nat)
    (msg : List Char) (p : Int)
    (hsrc : srcIp ≠ localIp)
    (hdec : utf8DecodeList data = some msg)
    (hpre : pyStartsWith ("PYDROP_ANNOUNCE".toList) msg = true)
    (hlen : 4 ≤ (pySplit '|' msg).length)
    (hport : pyIntOfChars? ((pySplit '|' msg).getD 3 []) = some p)
    (hid : String.mk ((pySplit '|' msg).getD 1 []) ≠ selfId) :
    listen_handle selfId localIp data srcIp now =
      some (mkDevice (String.mk ((pySplit '|' msg).getD 2 [])) srcIp 8765 p
        (String.mk ((pySplit '|' msg).getD 1 [])) now) := by
  unfold listen_handle
  rw [if_pos hsrc]
  unfold handle_message
  simp only [hdec]
  rw [if_pos hpre, if_pos hlen, if_pos hid, hport]

/-- Witness for the amended claim C7 at a concrete well-formed
announcement arriving from source address 10.0.0.7 while the local IP is
10.0.0.1. -/
theorem wellformed_announce_from_foreign_ip_witness :
    listen_handle "me1234567890" "10.0.0.1"
        (asciiBytes "PYDROP_ANNOUNCE|peer01|Alice|80") "10.0.0.7" 5 =
      some (mkDevice
        (String.mk
          ((pySplit '|' ("PYDROP_ANNOUNCE|peer01|Alice|80".toList)).getD 2 []))
        "10.0.0.7" 8765 80
        (String.mk
          ((pySplit '|' ("PYDROP_ANNOUNCE|peer01|Alice|80".toList)).getD 1 []))
        5) :=
  wellformed_announce_from_foreign_ip_invokes_callback "me1234567890" "10.0.0.1"
    (asciiBytes "PYDROP_ANNOUNCE|peer01|Alice|80") "10.0.0.7" 5
    ("PYDROP_ANNOUNCE|peer01|Alice|80".toList) 80 (by decide) (by decide)
    (by decide) (by decide) (by decide) (by decide)

/-- Classifier for claim C8's malformed datagrams: undecodable bytes,
fewer than 4 pipe-delimited fields (which covers a wrong delimiter,
since then no pipe occurs and only one field results), or a port field
that `int()` rejects. -/
def malformedDatagram (data : List Nat) : Bool :=
  match utf8DecodeList data with
  | none => true
  | some msg =>
    decide ((pySplit '|' msg).length < 4) ||
      (pyIntOfChars? ((pySplit '|' msg).getD 3 [])).isNone

/-- Claim C8: for every malformed datagram — wrong delimiter, fewer than
4 fields, non-UTF8 bytes, or a non-numeric port field — the listener's
message handling neither raises an uncaught exception nor invokes
`onDeviceFound`.  In the embedding the decode and `int()` exceptions are
the `Option` failures, every one of which the handler's bare `except`
maps to `none`; `handle_message` is total and returns `none` (no
invocation) on every malformed datagram. -/
theorem malformed_datagram_never_invokes_callback (selfId : String)
    (data : List Nat) (addr : String) (now : Nat)
    (h : malformedDatagram data = true) :
    handle_message selfId data addr now = none := by
  unfold malformedDatagram at h
  unfold handle_message
  cases hdec : utf8DecodeList data with
  | none => simp only [hdec]
  | some msg =>
    simp only [hdec] at h ⊢
    rw [Bool.or_eq_true, decide_eq_true_iff, Option.isNone_iff_eq_none] at h
    by_cases hsw : pyStartsWith ("PYDROP_ANNOUNCE".toList) msg = true
    · rw [if_pos hsw]
      by_cases hlen : 4 ≤ (pySplit '|' msg).length
      · rw [if_pos hlen]
        have hport : pyIntOfChars? ((pySplit '|' msg).getD 3 []) = none := by
          rcases h with h | h
          · omega
          · exact h
        by_cases hne : String.mk ((pySplit '|' msg).getD 1 []) ≠ selfId
        · rw [if_pos hne, hport]
        · rw [if_neg hne]
      · rw [if_neg hlen]
    · rw [if_neg hsw]

/-- Witness for claim C8 at a concrete three-field announcement. -/
theorem malformed_datagram_witness :
    handle_message "me1234567890" (asciiBytes "PYDROP_ANNOUNCE|peer01|Alice")
      "10.0.0.7" 0 = none :=
  malformed_datagram_never_invokes_callback "me1234567890"
    (asciiBytes "PYDROP_ANNOUNCE|peer01|Alice") "10.0.0.7" 0 (by decide)

end PyDrop
